import Mathlib

/-!
Shallow embedding of the WebSocket core of liblbHttpd: the per-connection
frame state machine (`WebSocket::parseFrame` and the send paths of
`src/unnamed/part_006`), the revocable sender facade (`Senders::Impl`,
`src/unnamed/part_009`), the scheduler's closed-connection drain
(`Server::Private::webSocketLoop`, `src/src/Server.cpp`) and the upgrade
gate's header checks (`Server::Private::isHeaderSet` / `isHeaderSetTo`).

Machine integers are modelled as `Nat` (sizes stay far below any overflow
boundary on every path modelled here); byte strings are `List Nat`.
-/

namespace Lb

/-- Modelled from the spec: the `ws::SendResult` enumeration.  The header
`SendResult.h` is not among the sources; the spec lists the five results
`Success, Failure, Closed, NoImplementation, FrameSizeTooSmall`. -/
inductive SendResult
  | eSuccess
  | eFailure
  | eClosed
  | eNoImplementation
  | eFrameSizeTooSmall
deriving DecidableEq, Repr

/-- `ws::Receivers::DataOpCode` (used throughout `src/src/ws/Receivers.cpp`
and `src/unnamed/part_006`). -/
inductive DataOpCode
  | eText
  | eBinary
deriving DecidableEq, Repr

/-- `ws::Receivers::ControlOpCode` from the `Receivers` header
(`src/unnamed/part_002`). -/
inductive ControlOpCode
  | eClose
  | ePing
  | ePong
deriving DecidableEq, Repr

/-- Modelled from the spec: `encoding::websocket::Header::OpCode` of the
external liblbEncoding library (not under the sources); the spec fixes the
opcode set `{Continuation, Text, Binary, Close, Ping, Pong}`. -/
inductive OpCode
  | eContinuation
  | eText
  | eBinary
  | eConnectionClose
  | ePing
  | ePong
deriving DecidableEq, Repr

/-- Modelled from the spec: the logical view of `encoding::websocket::Header`.
`fin` and `isMasked` default to `false`: server encodes never set the mask
bit, and `WebSocket::sendMessage` relies on the default `fin` being `false`
for its non-final fragments (it only ever assigns `header.fin = true` for
the final frame). -/
structure Header where
  fin : Bool := false
  opCode : OpCode := OpCode.eContinuation
  isMasked : Bool := false
  payloadSize : Nat := 0
deriving DecidableEq, Repr

/-- Modelled from the spec:
`encoding::websocket::Header::encodedSizeInBytes(payloadLen, masked)`,
the RFC 6455 section 5.2 header size: 2 base bytes, 2 extra bytes for a
16-bit extended length, 8 extra bytes for a 64-bit extended length, and
4 masking-key bytes when masked. -/
def encodedSizeInBytes (payloadLen : Nat) (masked : Bool) : Nat :=
  2 + (if payloadLen ≤ 125 then 0 else if payloadLen ≤ 65535 then 2 else 8)
    + (if masked then 4 else 0)

/-- A decoded frame: header plus (already unmasked) payload bytes. -/
structure Frame where
  header : Header
  payload : List Nat
deriving DecidableEq, Repr

/-- `WebSocket::CloseHandshake` (the close handshake state of a session). -/
inductive CloseHandshake
  | eNone
  | eServerInitiated
  | eClientInitiated
  | eComplete
deriving DecidableEq, Repr

/-- Modelled from the spec:
`encoding::websocket::closestatus::encodePayloadCode` writes the 2-byte
network-order (big-endian) status code at the start of the close payload. -/
def encodePayloadCode (code : Nat) : List Nat :=
  [code / 256 % 256, code % 256]

/-- `encoding::websocket::closestatus::ProtocolCode::eProtocolError`
maps to payload code 1002 (spec: "1002 ProtocolError"). -/
def protocolErrorCode : Nat := 1002

/-- Observable actions of a session, in program order: calls out to
`Receivers`, frames written to the socket by `sendFrame`, the revocation
`ws::Senders::Impl::close`, and the scheduler `closeCallback`. -/
inductive Event
  | receiveData (op : DataOpCode) (payload : List Nat)
  | receiveControl (op : ControlOpCode) (payload : List Nat)
  | sendFrame (header : Header) (payload : List Nat)
  | closeSenders
  | closeCallback
deriving DecidableEq, Repr

/-- `WebSocket::Fragmented`: the per-session fragmentation buffer. -/
structure Fragmented where
  dataOpCode : DataOpCode
  payload : List Nat
deriving DecidableEq, Repr

/-- The mutable session state that `WebSocket::parseFrame` and the send
paths read and write: the optional fragmentation buffer and the close
handshake state. -/
structure WebSocketState where
  fragmented : Option Fragmented := none
  closeHandshake : CloseHandshake := CloseHandshake.eNone
deriving DecidableEq, Repr

/-- `WebSocket::closeConnection` (`src/unnamed/part_006` lines 449-490):
no-op when a close was already sent or received; otherwise emits a Close
frame whose payload is the 2-byte code followed by the reason, records the
server-initiated close, and invokes the close callback. -/
def closeConnection (st : WebSocketState) (statusCode : Nat) (reason : List Nat) :
    WebSocketState × List Event :=
  if st.closeHandshake ≠ CloseHandshake.eNone then
    (st, [])
  else
    let payload := encodePayloadCode statusCode ++ reason
    let header : Header := { opCode := OpCode.eConnectionClose, payloadSize := payload.length }
    ({ st with closeHandshake := CloseHandshake.eServerInitiated },
     [Event.sendFrame header payload, Event.closeCallback])

/-- Byte list of an ASCII reason string. -/
def strBytes (s : String) : List Nat :=
  s.data.map Char.toNat

/-- Reason passed at `src/unnamed/part_006` line 164. -/
def unexpectedTextReason : List Nat :=
  strBytes "Unexpected text frame received, expected continuation."

/-- Reason passed at `src/unnamed/part_006` line 182. -/
def unexpectedBinaryReason : List Nat :=
  strBytes "Unexpected binary frame received, expected continuation."

/-- Reason passed at `src/unnamed/part_006` line 200. -/
def unexpectedContinuationReason : List Nat :=
  strBytes "Unexpected continuation frame received."

/-- One iteration of the frame loop of `WebSocket::parseFrame`
(`src/unnamed/part_006` lines 145-278).  Returns the new state, the
observable events in program order, and the boolean the loop propagates
(`false` means `parseFrame` returns `false` so the scheduler deregisters
the socket). -/
def processFrame (st : WebSocketState) (frame : Frame) :
    WebSocketState × List Event × Bool :=
  if frame.header.isMasked = false then
    let r := closeConnection st protocolErrorCode []
    (r.1, r.2, false)
  else
    match frame.header.opCode with
    | OpCode.eText =>
      match st.fragmented with
      | some _ =>
        let r := closeConnection st protocolErrorCode unexpectedTextReason
        (r.1, r.2, false)
      | none =>
        if frame.header.fin then
          (st, [Event.receiveData DataOpCode.eText frame.payload], true)
        else
          ({ st with fragmented := some ⟨DataOpCode.eText, frame.payload⟩ }, [], true)
    | OpCode.eBinary =>
      match st.fragmented with
      | some _ =>
        let r := closeConnection st protocolErrorCode unexpectedBinaryReason
        (r.1, r.2, false)
      | none =>
        if frame.header.fin then
          (st, [Event.receiveData DataOpCode.eBinary frame.payload], true)
        else
          ({ st with fragmented := some ⟨DataOpCode.eBinary, frame.payload⟩ }, [], true)
    | OpCode.eContinuation =>
      match st.fragmented with
      | none =>
        let r := closeConnection st protocolErrorCode unexpectedContinuationReason
        (r.1, r.2, false)
      | some frag =>
        if frame.header.fin then
          -- Delivers the buffered payload only: the payload of the FIN
          -- continuation frame itself is dropped (lines 203-209).
          ({ st with fragmented := none },
           [Event.receiveData frag.dataOpCode frag.payload], true)
        else
          -- Replaces the buffer with the current frame payload and
          -- hard-codes `eText` (lines 210-213).
          ({ st with fragmented := some ⟨DataOpCode.eText, frame.payload⟩ }, [], true)
    | OpCode.eConnectionClose =>
      let ev := Event.receiveControl ControlOpCode.eClose frame.payload
      match st.closeHandshake with
      | CloseHandshake.eNone =>
        let header : Header :=
          { opCode := OpCode.eConnectionClose, payloadSize := frame.payload.length }
        ({ st with closeHandshake := CloseHandshake.eClientInitiated },
         [ev, Event.sendFrame header frame.payload, Event.closeSenders,
          Event.closeCallback], false)
      | CloseHandshake.eServerInitiated =>
        ({ st with closeHandshake := CloseHandshake.eComplete },
         [ev, Event.closeCallback], false)
      | CloseHandshake.eClientInitiated => (st, [ev, Event.closeCallback], false)
      | CloseHandshake.eComplete => (st, [ev, Event.closeCallback], false)
    | OpCode.ePing =>
      let header : Header := { opCode := OpCode.ePong, payloadSize := frame.payload.length }
      (st, [Event.receiveControl ControlOpCode.ePing frame.payload,
            Event.sendFrame header frame.payload], true)
    | OpCode.ePong =>
      -- Source line 273-277: the Pong case passes `ControlOpCode::eClose`.
      (st, [Event.receiveControl ControlOpCode.eClose frame.payload], true)

/-- The whole frame loop of `WebSocket::parseFrame` over the decoded frames
of one read, stopping (with result `false`) at the first frame whose case
returns `false`. -/
def processFrames (st : WebSocketState) : List Frame → WebSocketState × List Event × Bool
  | [] => (st, [], true)
  | f :: fs =>
    let r := processFrame st f
    if r.2.2 then
      let rest := processFrames r.1 fs
      (rest.1, r.2.1 ++ rest.2.1, rest.2.2)
    else
      (r.1, r.2.1, false)

/-- The `while` loop of `WebSocket::sendMessage` (`src/unnamed/part_006`
lines 311-331).  `ehs` is the encoded header size computed once, before the
loop, from the full payload length.  The conjunct `ehs < maxFrameSize` is
established by `sendMessage` before the loop ever runs (without it the C++
loop would not terminate); the loop condition proper is
`numPayloadBytesRemaining + encodedHeaderSize > maxFrameSize`.  The C++
keeps one mutable `header` across the whole send: `opCode` is modelled as
the `opCode` parameter here, and the `if (sentFirstFrame)` update to
`eContinuation` fires at the start of an iteration — so for the first time
on the second iteration.  Returns the emitted frames, the opcode left in
the mutable header when the loop ends (used for the final frame), the final
`sentFirstFrame` flag and the remaining bytes. -/
def fragmentLoop (maxFrameSize ehs : Nat) (opCode : OpCode) (sentFirstFrame : Bool)
    (bytes : List Nat) :
    List (Header × List Nat) × OpCode × Bool × List Nat :=
  if h : ehs < maxFrameSize ∧ maxFrameSize < bytes.length + ehs then
    let op := if sentFirstFrame then OpCode.eContinuation else opCode
    let hdr : Header :=
      { fin := false
      , opCode := op
      , isMasked := false
      , payloadSize := maxFrameSize - ehs }
    let r := fragmentLoop maxFrameSize ehs op true (bytes.drop (maxFrameSize - ehs))
    ((hdr, bytes.take (maxFrameSize - ehs)) :: r.1, r.2.1, r.2.2.1, r.2.2.2)
  else
    ([], opCode, sentFirstFrame, bytes)
termination_by bytes.length
decreasing_by
  simp only [List.length_drop]
  omega

/-- `WebSocket::sendMessage` (`src/unnamed/part_006` lines 284-340).
Returns the `SendResult` and the frames passed to `sendFrame`, in order.
Frames are pairs of the header and the payload slice. -/
def sendMessage (st : WebSocketState) (payload : List Nat) (maxFrameSize : Nat) :
    SendResult × List (Header × List Nat) :=
  if st.closeHandshake ≠ CloseHandshake.eNone then
    (SendResult.eClosed, [])
  else
    let ehs := encodedSizeInBytes payload.length false
    if maxFrameSize ≠ 0 ∧ maxFrameSize ≤ ehs then
      -- Source line 300: this branch returns `eFailure`.
      (SendResult.eFailure, [])
    else
      let r :=
        if 0 < maxFrameSize then fragmentLoop maxFrameSize ehs OpCode.eText false payload
        else ([], OpCode.eText, false, payload)
      let finalHeader : Header :=
        { fin := true
        , opCode := r.2.1
        , isMasked := false
        , payloadSize := r.2.2.2.length }
      (SendResult.eSuccess, r.1 ++ [(finalHeader, r.2.2.2)])

/-- `WebSocket::sendClose` (`src/unnamed/part_006` lines 342-369).  Returns
the result, the new session state, and the events (the Close frame write
and the immediate `closeCallback` invocation at line 366).  The
`closeSentTimePoint` assignment is a wall-clock side effect not carried in
the modelled state. -/
def sendClose (st : WebSocketState) (code : Nat) (reason : List Nat) :
    SendResult × WebSocketState × List Event :=
  if st.closeHandshake ≠ CloseHandshake.eNone then
    (SendResult.eClosed, st, [])
  else
    let payload := encodePayloadCode code ++ reason
    let header : Header := { opCode := OpCode.eConnectionClose, payloadSize := payload.length }
    (SendResult.eSuccess,
     { st with closeHandshake := CloseHandshake.eServerInitiated },
     [Event.sendFrame header payload, Event.closeCallback])

/-- `WebSocket::sendPing` (`src/unnamed/part_006` lines 371-386).  The
result of `sendFrame` is discarded; line 385 returns `eFailure` even when
the socket write succeeded (the model assumes the write succeeds, matching
the claim's premise). -/
def sendPing (st : WebSocketState) (payload : List Nat) : SendResult × List Event :=
  if st.closeHandshake ≠ CloseHandshake.eNone then
    (SendResult.eClosed, [])
  else
    let header : Header := { opCode := OpCode.ePing, payloadSize := payload.length }
    (SendResult.eFailure, [Event.sendFrame header payload])

/-- `WebSocket::sendPong` (`src/unnamed/part_006` lines 388-403), same
shape as `sendPing`: line 402 returns `eFailure` on the success path. -/
def sendPong (st : WebSocketState) (payload : List Nat) : SendResult × List Event :=
  if st.closeHandshake ≠ CloseHandshake.eNone then
    (SendResult.eClosed, [])
  else
    let header : Header := { opCode := OpCode.ePong, payloadSize := payload.length }
    (SendResult.eFailure, [Event.sendFrame header payload])

/-- `WebSocket::canClose` (`src/unnamed/part_006` lines 69-101), with the
elapsed milliseconds since `closeSentTimePoint` passed explicitly.  Returns
`false` when no close was initiated, `false` when a server-initiated close
is older than the 2000 ms timeout, and `true` otherwise.  No code in the
sources ever calls this function. -/
def canClose (closeHandshake : CloseHandshake) (elapsedMilliseconds : Nat) : Bool :=
  match closeHandshake with
  | CloseHandshake.eNone => false
  | CloseHandshake.eServerInitiated => decide (elapsedMilliseconds ≤ 2000)
  | CloseHandshake.eClientInitiated => true
  | CloseHandshake.eComplete => true

/-- `ws::Senders::Impl` (`src/unnamed/part_009`): four swappable sender
closures.  An empty (`none`) closure corresponds to a default-constructed
`std::function`. -/
structure SendersImpl where
  dataSender : Option (List Nat → Nat → SendResult)
  closeSender : Option (Nat → List Nat → SendResult)
  pingSender : Option (List Nat → SendResult)
  pongSender : Option (List Nat → SendResult)

/-- `Senders::Impl::sendData`: invoke the closure if set, else `eClosed`. -/
def SendersImpl.sendData (impl : SendersImpl) (message : List Nat) (maxFrameSize : Nat) :
    SendResult :=
  match impl.dataSender with
  | some ds => ds message maxFrameSize
  | none => SendResult.eClosed

/-- `Senders::Impl::sendClose`: invoke the closure if set, else `eClosed`. -/
def SendersImpl.sendClose (impl : SendersImpl) (code : Nat) (reason : List Nat) : SendResult :=
  match impl.closeSender with
  | some cs => cs code reason
  | none => SendResult.eClosed

/-- `Senders::Impl::sendPing`: invoke the closure if set, else `eClosed`. -/
def SendersImpl.sendPing (impl : SendersImpl) (payload : List Nat) : SendResult :=
  match impl.pingSender with
  | some ps => ps payload
  | none => SendResult.eClosed

/-- `Senders::Impl::close`: swap every closure to empty. -/
def SendersImpl.close (_ : SendersImpl) : SendersImpl :=
  ⟨none, none, none, none⟩

/-- `Senders::Impl::sendPong`: invoke the closure if set, else `eClosed`. -/
def SendersImpl.sendPong (impl : SendersImpl) (payload : List Nat) : SendResult :=
  match impl.pongSender with
  | some ps => ps payload
  | none => SendResult.eClosed

/-- Outcome of the closed-WebSockets drain inside one cycle of
`Server::Private::webSocketLoop` (`src/src/Server.cpp` lines 716-728):
either the loop proceeds to the next poll cycle with the updated registry
(the drained set is cleared), or the `return` at line 724 exits
`webSocketLoop` altogether, terminating the scheduler thread. -/
inductive DrainOutcome
  | continues (registry : List Nat)
  | exits (registry : List Nat)
deriving DecidableEq, Repr

/-- The drain loop over `closedWebSockets`: each id found in the registry is
erased; an id absent from the registry logs "Unknown WebSocket closed!" and
executes `return`, leaving `webSocketLoop` (so polling stops and the rest
of the set is neither processed nor cleared). -/
def drainClosedWebSockets (registry : List Nat) : List Nat → DrainOutcome
  | [] => DrainOutcome.continues registry
  | id :: rest =>
    if id ∈ registry then drainClosedWebSockets (registry.erase id) rest
    else DrainOutcome.exits registry

/-- `Server::Private::isHeaderSet` (`src/src/Server.cpp` lines 384-387):
`headers.count(header) > 0` on a `std::unordered_map` with the default
`std::string` equality, i.e. exact, case-sensitive key lookup. -/
def isHeaderSet (headers : List (String × String)) (header : String) : Bool :=
  headers.any fun kv => kv.1 == header

/-- `Server::Private::isHeaderSetTo` (`src/src/Server.cpp` lines 389-394):
exact key lookup followed by `==` on the full stored value. -/
def isHeaderSetTo (headers : List (String × String)) (header value : String) : Bool :=
  match headers.find? (fun kv => kv.1 == header) with
  | some kv => kv.2 == value
  | none => false

/-- The header portion of the upgrade gate
`Server::Private::maybeCreateWebSocketResponse` (`src/src/Server.cpp`
lines 326-345): Host present, `Upgrade` equal to "websocket", `Connection`
equal to "Upgrade", and the two Sec-WebSocket headers present. -/
def upgradeHeadersAccepted (headers : List (String × String)) : Bool :=
  isHeaderSet headers "Host" &&
  isHeaderSetTo headers "Upgrade" "websocket" &&
  isHeaderSetTo headers "Connection" "Upgrade" &&
  isHeaderSet headers "Sec-WebSocket-Version" &&
  isHeaderSet headers "Sec-WebSocket-Key"

/-- ASCII lower-casing of one character (for the spec-side matcher only). -/
def lowerAsciiChar (c : Char) : Char :=
  if 65 ≤ c.toNat ∧ c.toNat ≤ 90 then Char.ofNat (c.toNat + 32) else c

/-- Split a character list at commas (for the spec-side matcher only). -/
def splitCommas : List Char → List (List Char)
  | [] => [[]]
  | c :: rest =>
    match splitCommas rest with
    | [] => [[c]]
    | t :: ts => if c = ',' then [] :: t :: ts else (c :: t) :: ts

/-- Strip leading and trailing spaces (for the spec-side matcher only). -/
def trimSpaces (l : List Char) : List Char :=
  ((l.dropWhile (fun c => c = ' ')).reverse.dropWhile (fun c => c = ' ')).reverse

/-- Written from the spec's words, for comparison with the source-derived
`isHeaderSet`: a header name match that is case-insensitive. -/
def specHeaderSet (headers : List (String × String)) (name : String) : Bool :=
  headers.any fun kv => kv.1.data.map lowerAsciiChar == name.data.map lowerAsciiChar

/-- Written from the spec's words, for comparison with the source-derived
`isHeaderSetTo`: case-insensitive name match and case-insensitive token
containment in the comma-separated value list. -/
def specHeaderTokenContains (headers : List (String × String)) (name token : String) : Bool :=
  headers.any fun kv =>
    kv.1.data.map lowerAsciiChar == name.data.map lowerAsciiChar &&
    ((splitCommas (kv.2.data.map lowerAsciiChar)).map trimSpaces).contains
      (token.data.map lowerAsciiChar)

/-- Written from the spec's words: the upgrade gate header check as the
spec describes it (case-insensitive names, token containment for the
`Upgrade` and `Connection` values). -/
def specUpgradeAccepted (headers : List (String × String)) : Bool :=
  specHeaderSet headers "Host" &&
  specHeaderTokenContains headers "Upgrade" "websocket" &&
  specHeaderTokenContains headers "Connection" "Upgrade" &&
  specHeaderSet headers "Sec-WebSocket-Version" &&
  specHeaderSet headers "Sec-WebSocket-Key"

/-- The fragment sequence of spec scenario 2: masked Text "ab" FIN=0,
Continuation "cd" FIN=0, Continuation "ef" FIN=1. -/
def c1Frames : List Frame :=
  [⟨{ fin := false, opCode := OpCode.eText, isMasked := true, payloadSize := 2 }, [97, 98]⟩,
   ⟨{ fin := false, opCode := OpCode.eContinuation, isMasked := true, payloadSize := 2 }, [99, 100]⟩,
   ⟨{ fin := true, opCode := OpCode.eContinuation, isMasked := true, payloadSize := 2 }, [101, 102]⟩]

/-- A request header set that the spec's matching rules accept (lowercase
`upgrade` field name; `Connection` value containing the token `Upgrade`)
but the source rejects. -/
def c6Headers : List (String × String) :=
  [("Host", "localhost"), ("upgrade", "websocket"),
   ("Connection", "keep-alive, Upgrade"),
   ("Sec-WebSocket-Version", "13"), ("Sec-WebSocket-Key", "k")]

/-! ## Supporting lemmas -/

/-- Unfolding lemma: the loop stops when the remaining payload plus header
fits in `maxFrameSize`. -/
theorem fragmentLoop_stop (F ehs : Nat) (op : OpCode) (sf : Bool) (bytes : List Nat)
    (h : ¬ (ehs < F ∧ F < bytes.length + ehs)) :
    fragmentLoop F ehs op sf bytes = ([], op, sf, bytes) := by
  rw [fragmentLoop, dif_neg h]

/-- Unfolding lemma: one iteration of the loop. -/
theorem fragmentLoop_step (F ehs : Nat) (op : OpCode) (sf : Bool) (bytes : List Nat)
    (h1 : ehs < F) (h2 : F < bytes.length + ehs) :
    fragmentLoop F ehs op sf bytes =
      (({ fin := false
        , opCode := if sf then OpCode.eContinuation else op
        , isMasked := false
        , payloadSize := F - ehs }, bytes.take (F - ehs))
          :: (fragmentLoop F ehs (if sf then OpCode.eContinuation else op) true
                (bytes.drop (F - ehs))).1,
       (fragmentLoop F ehs (if sf then OpCode.eContinuation else op) true
         (bytes.drop (F - ehs))).2.1,
       (fragmentLoop F ehs (if sf then OpCode.eContinuation else op) true
         (bytes.drop (F - ehs))).2.2.1,
       (fragmentLoop F ehs (if sf then OpCode.eContinuation else op) true
         (bytes.drop (F - ehs))).2.2.2) := by
  rw [fragmentLoop, dif_pos ⟨h1, h2⟩]

/-- Monotonicity of the encoded header size in the payload length. -/
theorem encodedSizeInBytes_mono {a b : Nat} (m : Bool) (h : a ≤ b) :
    encodedSizeInBytes a m ≤ encodedSizeInBytes b m := by
  unfold encodedSizeInBytes
  split_ifs <;> omega

/-- Full characterisation of `fragmentLoop`, by induction on a bound `n` on
the byte count: payload chunks concatenate back (with the remainder) to the
input, the number of emitted frames is `(len - 1) / (F - ehs)`, the
remainder fits in one more frame, every emitted frame is an unmasked
non-FIN frame carrying exactly `F - ehs` bytes, the `sentFirstFrame` flag
comes out true exactly when the flag came in true or at least one frame was
emitted, and the opcodes follow the mutable-header discipline: when the
flag came in true every frame is a Continuation and the returned opcode is
Continuation as soon as one frame was emitted; when the flag came in false
the first frame carries the incoming opcode, later frames are
Continuations, and the returned opcode switches to Continuation only once a
second frame has been emitted. -/
theorem fragmentLoop_spec (F ehs : Nat) (hF : ehs < F) :
    ∀ (n : Nat) (bytes : List Nat), bytes.length ≤ n → ∀ (sf : Bool) (op : OpCode),
      ((((fragmentLoop F ehs op sf bytes).1.map Prod.snd).flatten
          ++ (fragmentLoop F ehs op sf bytes).2.2.2 = bytes) ∧
        (fragmentLoop F ehs op sf bytes).1.length = (bytes.length - 1) / (F - ehs) ∧
        (fragmentLoop F ehs op sf bytes).2.2.2.length ≤ F - ehs) ∧
      (∀ fp ∈ (fragmentLoop F ehs op sf bytes).1,
          fp.1.fin = false ∧ fp.1.isMasked = false ∧
          fp.1.payloadSize = F - ehs ∧ fp.2.length = F - ehs) ∧
      ((fragmentLoop F ehs op sf bytes).2.2.1
          = (sf || decide (F < bytes.length + ehs))) ∧
      (sf = true →
          (∀ fp ∈ (fragmentLoop F ehs op sf bytes).1,
              fp.1.opCode = OpCode.eContinuation) ∧
          (fragmentLoop F ehs op sf bytes).2.1
            = (if 0 < (fragmentLoop F ehs op sf bytes).1.length
               then OpCode.eContinuation else op)) ∧
      (sf = false →
          ((fragmentLoop F ehs op sf bytes).1 = [] ∧
            (fragmentLoop F ehs op sf bytes).2.1 = op) ∨
          (∃ f rest, (fragmentLoop F ehs op sf bytes).1 = f :: rest ∧
            f.1.opCode = op ∧
            (∀ fp ∈ rest, fp.1.opCode = OpCode.eContinuation) ∧
            (fragmentLoop F ehs op sf bytes).2.1
              = (if 0 < rest.length then OpCode.eContinuation else op))) := by
  intro n
  induction n with
  | zero =>
    intro bytes hlen sf op
    have hb : bytes = [] := List.length_eq_zero.mp (Nat.le_zero.mp hlen)
    subst hb
    rw [fragmentLoop_stop F ehs op sf [] (by simp; omega)]
    refine ⟨⟨by simp, by simp, by simp⟩, by simp, ?_, ?_, ?_⟩
    · simp only [List.length_nil, Nat.zero_add]
      rw [decide_eq_false (by omega), Bool.or_false]
    · intro _
      exact ⟨by simp, by simp⟩
    · intro _
      exact Or.inl ⟨rfl, rfl⟩
  | succ n ih =>
    intro bytes hlen sf op
    by_cases hcond : F < bytes.length + ehs
    · have hlt : F - ehs < bytes.length := by omega
      have hdroplen : (bytes.drop (F - ehs)).length ≤ n := by
        simp only [List.length_drop]; omega
      obtain ⟨⟨iha, ihb, ihc⟩, ihd, ihf, ihe1, _⟩ :=
        ih (bytes.drop (F - ehs)) hdroplen true
          (if sf then OpCode.eContinuation else op)
      obtain ⟨ihcont, ihop⟩ := ihe1 rfl
      rw [fragmentLoop_step F ehs op sf bytes hF hcond]
      refine ⟨⟨?_, ?_, ihc⟩, ?_, ?_, ?_, ?_⟩
      · simp only [List.map_cons, List.flatten_cons, List.append_assoc, iha,
          List.take_append_drop]
      · have h1 : (bytes.length - 1) / (F - ehs)
            = ((bytes.length - 1) - (F - ehs)) / (F - ehs) + 1 :=
          Nat.div_eq_sub_div (by omega) (by omega)
        have h2 : (bytes.length - 1) - (F - ehs) = (bytes.length - (F - ehs)) - 1 := by
          omega
        simp only [List.length_cons, ihb, List.length_drop, h1, h2]
      · intro fp hfp
        rcases List.mem_cons.mp hfp with hfp | hfp
        · subst hfp
          refine ⟨rfl, rfl, rfl, ?_⟩
          simp only [List.length_take]
          omega
        · exact ihd fp hfp
      · simp only [ihf, Bool.true_or, decide_eq_true_eq.mpr hcond, Bool.or_true]
      · intro hsf
        subst hsf
        constructor
        · intro fp hfp
          rcases List.mem_cons.mp hfp with hfp | hfp
          · subst hfp; rfl
          · exact ihcont fp hfp
        · simp only [if_true] at ihop ⊢
          rw [ihop, ite_self]
          simp
      · intro hsf
        subst hsf
        refine Or.inr ⟨_, _, rfl, rfl, ?_, ?_⟩
        · exact ihcont
        · simp only [if_false] at ihop ⊢
          exact ihop
    · rw [fragmentLoop_stop F ehs op sf bytes (fun hh => hcond hh.2)]
      refine ⟨⟨by simp, ?_, by simp; omega⟩, by simp, ?_, ?_, ?_⟩
      · exact (Nat.div_eq_of_lt (by omega)).symm
      · simp [hcond]
      · intro _
        exact ⟨by simp, by simp⟩
      · intro _
        exact Or.inl ⟨rfl, rfl⟩

/-- `sendMessage` on an open session with a frame size that beats the
header size: the result is success and the frames are the loop frames
followed by the final FIN frame, whose opcode is whatever the loop left in
the mutable header. -/
theorem sendMessage_open_eq (st : WebSocketState) (payload : List Nat) (F : Nat)
    (hopen : st.closeHandshake = CloseHandshake.eNone)
    (hF : encodedSizeInBytes payload.length false < F) :
    sendMessage st payload F
      = (SendResult.eSuccess,
         (fragmentLoop F (encodedSizeInBytes payload.length false)
            OpCode.eText false payload).1
           ++ [({ fin := true
                , opCode :=
                    (fragmentLoop F (encodedSizeInBytes payload.length false)
                      OpCode.eText false payload).2.1
                , isMasked := false
                , payloadSize :=
                    (fragmentLoop F (encodedSizeInBytes payload.length false)
                      OpCode.eText false payload).2.2.2.length },
               (fragmentLoop F (encodedSizeInBytes payload.length false)
                 OpCode.eText false payload).2.2.2)]) := by
  have hnot : ¬ (F ≠ 0 ∧ F ≤ encodedSizeInBytes payload.length false) := by omega
  have hFpos : 0 < F := by omega
  simp [sendMessage, hopen, hnot, hFpos]

/-! ## Claim theorems -/

/-- Claim C1 (code bug): the claim says the fragment sequence
`Text(FIN=0) "ab" · Continuation(FIN=0) "cd" · Continuation(FIN=1) "ef"`,
all masked, from a session with no fragmentation buffer, yields exactly one
`receiveData` whose payload is the concatenation `"abcdef"` with opcode
Text.  The source never appends: a non-FIN continuation overwrites the
buffer (and resets the opcode to Text) and the FIN continuation delivers
only the buffered bytes, dropping its own payload — so `"cd"` is delivered
instead of `"abcdef"`. -/
theorem C1_reassembly_drops_fragments :
    processFrames { } c1Frames
        = ({ }, [Event.receiveData DataOpCode.eText [99, 100]], true) ∧
    (processFrames { } c1Frames).2.1
        ≠ [Event.receiveData DataOpCode.eText [97, 98, 99, 100, 101, 102]] := by
  decide

/-- Claim C2 (code bug): the claim says a masked Pong received while open is
delivered as `receiveControl(Pong, payload)`.  The Pong case of
`parseFrame` (source lines 273-277) passes `ControlOpCode::eClose`
instead. -/
theorem C2_pong_dispatched_as_close :
    processFrame { }
        ⟨{ fin := true, opCode := OpCode.ePong, isMasked := true, payloadSize := 3 },
         [120, 121, 122]⟩
      = ({ }, [Event.receiveControl ControlOpCode.eClose [120, 121, 122]], true) ∧
    ControlOpCode.eClose ≠ ControlOpCode.ePong := by
  decide

/-- Claim C3 (code bug): the claim says an unknown connection id in the
closed-WebSockets set is logged and discarded and the scheduler keeps
polling.  The drain's not-found branch (`Server.cpp` line 724) executes
`return`, exiting `webSocketLoop`: the scheduler thread terminates instead
of continuing; a known id, by contrast, is erased and the loop continues. -/
theorem C3_unknown_id_exits_scheduler_loop :
    drainClosedWebSockets [] [7] = DrainOutcome.exits [] ∧
    drainClosedWebSockets [5] [5] = DrainOutcome.continues [] := by
  decide

/-- Claim C4 (code bug): the claim says `sendPing`/`sendPong` with a ≤125
byte payload on an open session whose socket write succeeds return
`Success`.  The source (lines 385 and 402) discards the `sendFrame` result
and returns `eFailure` on that very path (the frame is still written). -/
theorem C4_ping_pong_success_path_returns_failure :
    sendPing { } [120, 121, 122]
        = (SendResult.eFailure,
           [Event.sendFrame { opCode := OpCode.ePing, payloadSize := 3 } [120, 121, 122]]) ∧
    sendPong { } [120, 121, 122]
        = (SendResult.eFailure,
           [Event.sendFrame { opCode := OpCode.ePong, payloadSize := 3 } [120, 121, 122]]) ∧
    SendResult.eFailure ≠ SendResult.eSuccess := by
  decide

/-- Claim C5 counterexample: with the empty payload (encoded header size 2)
and `maxFrameSize = 1`, `sendMessage` on an open session returns
`eFailure`, not the `eFrameSizeTooSmall` the claim requires. -/
theorem C5_counterexample :
    (sendMessage { } [] 1).1 = SendResult.eFailure ∧
    (sendMessage { } [] 1).1 ≠ SendResult.eFrameSizeTooSmall := by
  decide

/-- Claim C5, amended: for every payload and every `maxFrameSize` with
`0 < maxFrameSize ≤ encodedHeaderSize`, `sendData` on an open session
returns `Failure` (not `FrameSizeTooSmall`) and sends no frame. -/
theorem C5_too_small_returns_failure (st : WebSocketState) (payload : List Nat)
    (maxFrameSize : Nat)
    (hopen : st.closeHandshake = CloseHandshake.eNone)
    (hpos : 0 < maxFrameSize)
    (hle : maxFrameSize ≤ encodedSizeInBytes payload.length false) :
    sendMessage st payload maxFrameSize = (SendResult.eFailure, []) := by
  have hne : maxFrameSize ≠ 0 := Nat.pos_iff_ne_zero.mp hpos
  simp [sendMessage, hopen, hne, hle]

/-- Witness for C5's amended theorem at the concrete input of the
counterexample. -/
theorem C5_too_small_returns_failure_witness :
    sendMessage { } [] 1 = (SendResult.eFailure, []) :=
  C5_too_small_returns_failure { } [] 1 rfl (by decide) (by decide)

/-- Claim C6 counterexample: the claim says the upgrade gate matches header
names case-insensitively and the `Upgrade`/`Connection` values by
case-insensitive token containment.  `c6Headers` satisfies exactly that
(the spec-side matcher accepts it), yet the gate's source-derived check
rejects it, because `isHeaderSet`/`isHeaderSetTo` do exact, case-sensitive
lookups and whole-value comparison. -/
theorem C6_counterexample :
    specUpgradeAccepted c6Headers = true ∧
    upgradeHeadersAccepted c6Headers = false := by
  decide

/-- Claim C6, amended: the upgrade gate matches header field names by
exact, case-sensitive equality, and requires the `Upgrade` and `Connection`
values to equal `"websocket"` and `"Upgrade"` byte-for-byte (no token
containment): a name check succeeds exactly when a literally equal key is
present, a value check only when the first literally matching entry carries
the literally equal full value, and the gate accepts the exact canonical
header set. -/
theorem C6_exact_case_sensitive_matching :
    (∀ headers name, isHeaderSet headers name = true ↔ ∃ kv ∈ headers, kv.1 = name) ∧
    (∀ headers name value, isHeaderSetTo headers name value = true →
        ∃ kv ∈ headers, kv.1 = name ∧ kv.2 = value) ∧
    upgradeHeadersAccepted
        [("Host", "localhost"), ("Upgrade", "websocket"), ("Connection", "Upgrade"),
         ("Sec-WebSocket-Version", "13"), ("Sec-WebSocket-Key", "k")] = true := by
  refine ⟨?_, ?_, by decide⟩
  · intro headers name
    simp [isHeaderSet, List.any_eq_true, beq_iff_eq]
  · intro headers name value h
    unfold isHeaderSetTo at h
    cases hf : headers.find? (fun kv => kv.1 == name) with
    | none => rw [hf] at h; exact absurd h (by simp)
    | some kv =>
      rw [hf] at h
      refine ⟨kv, List.mem_of_find?_eq_some hf, ?_, ?_⟩
      · have := List.find?_some hf
        exact beq_iff_eq.mp this
      · exact beq_iff_eq.mp h

/-- Witness for C6's amended theorem: the value-match direction applied at
a concrete header list. -/
theorem C6_exact_case_sensitive_matching_witness :
    ∃ kv ∈ [("Upgrade", "websocket")], kv.1 = "Upgrade" ∧ kv.2 = "websocket" :=
  C6_exact_case_sensitive_matching.2.1 [("Upgrade", "websocket")] "Upgrade" "websocket"
    (by decide)

/-- Claim C7 (code bug): the claim says the scheduler checks, each poll
cycle, whether a `ClosingLocal` session's close is older than 2000 ms and
only then tears it down, bounding teardown to 2000-2500 ms.  In the source
the 2000 ms test lives in `WebSocket::canClose`, which no code ever calls;
instead `sendClose` invokes the close callback immediately (line 366), so
the id is already in the closed set and the very next drain removes the
session unconditionally — `canClose` would still report the session alive
at 0 ms elapsed and dead only after 2000 ms, but the scheduler never asks. -/
theorem C7_close_timeout_never_checked :
    Event.closeCallback ∈ (sendClose { } 1000 []).2.2 ∧
    (sendClose { } 1000 []).2.1.closeHandshake = CloseHandshake.eServerInitiated ∧
    drainClosedWebSockets [5] [5] = DrainOutcome.continues [] ∧
    canClose CloseHandshake.eServerInitiated 0 = true ∧
    canClose CloseHandshake.eServerInitiated 2001 = false := by
  decide

/-- Claim C8 counterexample: a 4-byte payload with `maxFrameSize = 5`
(header size 2, chunk size 3) splits into exactly two frames, and the
second, final FIN=1 frame carries opcode Text, not the Continuation the
claim asserts: the C++ updates the mutable header's opcode to Continuation
only at the start of the second and later loop iterations, so after exactly
one iteration the final frame is still sent as Text. -/
theorem C8_counterexample :
    (sendMessage { } [0, 1, 2, 3] 5).2
      = [({ fin := false, opCode := OpCode.eText, isMasked := false, payloadSize := 3 },
          [0, 1, 2]),
         ({ fin := true, opCode := OpCode.eText, isMasked := false, payloadSize := 1 },
          [3])] ∧
    (∀ lastF ∈ ((sendMessage { } [0, 1, 2, 3] 5).2.map Prod.fst).getLast?,
        lastF.opCode ≠ OpCode.eContinuation) := by
  have hsend : sendMessage { } [0, 1, 2, 3] 5
      = (SendResult.eSuccess,
         [({ fin := false, opCode := OpCode.eText, isMasked := false, payloadSize := 3 },
           [0, 1, 2]),
          ({ fin := true, opCode := OpCode.eText, isMasked := false, payloadSize := 1 },
           [3])]) := by
    rw [sendMessage_open_eq { } [0, 1, 2, 3] 5 rfl (by decide)]
    rw [show encodedSizeInBytes ([0, 1, 2, 3] : List Nat).length false = 2 from rfl]
    rw [fragmentLoop_step 5 2 OpCode.eText false [0, 1, 2, 3] (by omega) (by decide)]
    rw [fragmentLoop_stop 5 2 (if false then OpCode.eContinuation else OpCode.eText) true
        (List.drop (5 - 2) [0, 1, 2, 3]) (by decide)]
    rfl
  rw [hsend]
  decide

/-- Claim C8, amended: for an `N`-byte payload and a `maxFrameSize F`
strictly greater than the encoded header size, `sendData` (the session's
`sendMessage`) succeeds and emits exactly these frames: every frame
unmasked with `payloadSize` equal to its payload's length and encoded size
(header plus payload) at most `F`; the frame payloads concatenate to the
original message; when `N + headerSize ≤ F` there is a single Text frame
with FIN=1 carrying the whole payload, and otherwise there are
`⌈N / (F - headerSize)⌉` frames — the first Text with FIN=0, the middle
ones Continuation with FIN=0, and the last frame FIN=1 with opcode
Continuation when at least three frames are emitted but opcode Text when
exactly two are (the mutable header's opcode is updated to Continuation
only from the second loop iteration on and the final frame reuses it
unchanged). -/
theorem C8_sendData_fragmentation (st : WebSocketState) (payload : List Nat) (F : Nat)
    (hopen : st.closeHandshake = CloseHandshake.eNone)
    (hF : encodedSizeInBytes payload.length false < F) :
    (sendMessage st payload F).1 = SendResult.eSuccess ∧
    (((sendMessage st payload F).2.map Prod.snd).flatten = payload) ∧
    (∀ fp ∈ (sendMessage st payload F).2,
        fp.1.isMasked = false ∧
        fp.1.payloadSize = fp.2.length ∧
        encodedSizeInBytes fp.2.length false + fp.2.length ≤ F) ∧
    (if payload.length + encodedSizeInBytes payload.length false ≤ F then
        (sendMessage st payload F).2
          = [({ fin := true, opCode := OpCode.eText, isMasked := false,
                payloadSize := payload.length }, payload)]
      else
        (sendMessage st payload F).2.length
            = (payload.length + (F - encodedSizeInBytes payload.length false) - 1)
                / (F - encodedSizeInBytes payload.length false) ∧
        ∃ first rest, (sendMessage st payload F).2 = first :: rest ∧
          first.1.opCode = OpCode.eText ∧ first.1.fin = false ∧
          rest ≠ [] ∧
          (∀ fp ∈ rest.dropLast,
              fp.1.opCode = OpCode.eContinuation ∧ fp.1.fin = false) ∧
          (∀ lastF ∈ rest.getLast?, lastF.1.fin = true ∧
              lastF.1.opCode
                = (if rest.length = 1 then OpCode.eText else OpCode.eContinuation))) := by
  rw [sendMessage_open_eq st payload F hopen hF]
  obtain ⟨⟨ha, hb, hc⟩, hd, hf, _, he2⟩ :=
    fragmentLoop_spec F (encodedSizeInBytes payload.length false) hF
      payload.length payload le_rfl false OpCode.eText
  refine ⟨rfl, ?_, ?_, ?_⟩
  · simpa [List.flatten_append] using ha
  · intro fp hfp
    rcases List.mem_append.mp hfp with hmem | hmem
    · obtain ⟨hfin, hmask, hps, hlen⟩ := hd fp hmem
      have hne : (fragmentLoop F (encodedSizeInBytes payload.length false)
          OpCode.eText false payload).1 ≠ [] := by
        intro hempty
        rw [hempty] at hmem
        exact absurd hmem (List.not_mem_nil fp)
      have hlpos : 0 < (fragmentLoop F (encodedSizeInBytes payload.length false)
          OpCode.eText false payload).1.length := List.length_pos.mpr hne
      have hcN : F - encodedSizeInBytes payload.length false < payload.length := by
        rw [hb] at hlpos
        have := Nat.one_le_div_iff (by omega :
            0 < F - encodedSizeInBytes payload.length false) |>.mp hlpos
        omega
      have hmono : encodedSizeInBytes (F - encodedSizeInBytes payload.length false) false
          ≤ encodedSizeInBytes payload.length false :=
        encodedSizeInBytes_mono false (by omega)
      refine ⟨hmask, ?_, ?_⟩
      · rw [hps, hlen]
      · rw [hlen]
        omega
    · rw [List.mem_singleton.mp hmem]
      refine ⟨rfl, rfl, ?_⟩
      dsimp only
      have hrl : (fragmentLoop F (encodedSizeInBytes payload.length false)
          OpCode.eText false payload).2.2.2.length ≤ payload.length := by
        have := congrArg List.length ha
        simp only [List.length_append] at this
        omega
      have hmono : encodedSizeInBytes
            ((fragmentLoop F (encodedSizeInBytes payload.length false)
              OpCode.eText false payload).2.2.2.length) false
          ≤ encodedSizeInBytes payload.length false :=
        encodedSizeInBytes_mono false hrl
      omega
  · by_cases hfit : payload.length + encodedSizeInBytes payload.length false ≤ F
    · rw [if_pos hfit]
      have hstop : fragmentLoop F (encodedSizeInBytes payload.length false)
          OpCode.eText false payload
          = ([], OpCode.eText, false, payload) :=
        fragmentLoop_stop _ _ _ _ _ (by omega)
      rw [hstop]
      rfl
    · rw [if_neg hfit]
      have hiter : F < payload.length + encodedSizeInBytes payload.length false := by omega
      have hcpos : 0 < F - encodedSizeInBytes payload.length false := by omega
      rcases he2 rfl with ⟨hempty, _⟩ | ⟨f0, ltail, hL1, hf0, htail, hop⟩
      · rw [hempty] at hb
        have : (payload.length - 1) / (F - encodedSizeInBytes payload.length false) = 0 :=
          hb.symm
        have hlt : payload.length - 1 < F - encodedSizeInBytes payload.length false :=
          (Nat.div_eq_zero_iff hcpos).mp this
        omega
      constructor
      · simp only [List.length_append, List.length_singleton, hb]
        have h1 : payload.length + (F - encodedSizeInBytes payload.length false) - 1
            = (payload.length - 1) + (F - encodedSizeInBytes payload.length false) := by
          omega
        rw [h1, Nat.add_div_right _ hcpos]
      · rw [hL1]
        refine ⟨f0, ltail ++ [_], List.cons_append f0 ltail _, hf0, ?_, by simp, ?_, ?_⟩
        · exact (hd f0 (hL1 ▸ List.mem_cons_self f0 ltail)).1
        · intro fp hfp
          rw [List.dropLast_concat] at hfp
          exact ⟨htail fp hfp, (hd fp (hL1 ▸ List.mem_cons_of_mem f0 hfp)).1⟩
        · intro lastF hlast
          rw [List.getLast?_concat] at hlast
          have hlf : lastF = _ := (Option.mem_some_iff.mp hlast).symm
          subst hlf
          refine ⟨rfl, ?_⟩
          dsimp only
          rw [hop]
          simp only [List.length_append, List.length_singleton]
          rcases Nat.eq_zero_or_pos ltail.length with hz | hpos
          · rw [hz]
            simp
          · rw [if_pos hpos, if_neg (by omega)]

/-- Witness for C8's amended theorem at the concrete input of spec
scenario 3's shape: a 10-byte payload with `maxFrameSize` 5 (header size 2,
so 3-byte chunks and four frames, the last a Continuation). -/
theorem C8_sendData_fragmentation_witness :
    (sendMessage { } [0, 1, 2, 3, 4, 5, 6, 7, 8, 9] 5).1 = SendResult.eSuccess ∧
    (((sendMessage { } [0, 1, 2, 3, 4, 5, 6, 7, 8, 9] 5).2.map Prod.snd).flatten
        = [0, 1, 2, 3, 4, 5, 6, 7, 8, 9]) ∧
    (∀ fp ∈ (sendMessage { } [0, 1, 2, 3, 4, 5, 6, 7, 8, 9] 5).2,
        fp.1.isMasked = false ∧
        fp.1.payloadSize = fp.2.length ∧
        encodedSizeInBytes fp.2.length false + fp.2.length ≤ 5) ∧
    (if ([0, 1, 2, 3, 4, 5, 6, 7, 8, 9] : List Nat).length
          + encodedSizeInBytes ([0, 1, 2, 3, 4, 5, 6, 7, 8, 9] : List Nat).length false
          ≤ 5 then
        (sendMessage { } [0, 1, 2, 3, 4, 5, 6, 7, 8, 9] 5).2
          = [({ fin := true, opCode := OpCode.eText, isMasked := false,
                payloadSize := ([0, 1, 2, 3, 4, 5, 6, 7, 8, 9] : List Nat).length },
              [0, 1, 2, 3, 4, 5, 6, 7, 8, 9])]
      else
        (sendMessage { } [0, 1, 2, 3, 4, 5, 6, 7, 8, 9] 5).2.length
            = (([0, 1, 2, 3, 4, 5, 6, 7, 8, 9] : List Nat).length
                + (5 - encodedSizeInBytes
                        ([0, 1, 2, 3, 4, 5, 6, 7, 8, 9] : List Nat).length false)
                - 1)
                / (5 - encodedSizeInBytes
                        ([0, 1, 2, 3, 4, 5, 6, 7, 8, 9] : List Nat).length false) ∧
        ∃ first rest,
          (sendMessage { } [0, 1, 2, 3, 4, 5, 6, 7, 8, 9] 5).2 = first :: rest ∧
          first.1.opCode = OpCode.eText ∧ first.1.fin = false ∧
          rest ≠ [] ∧
          (∀ fp ∈ rest.dropLast,
              fp.1.opCode = OpCode.eContinuation ∧ fp.1.fin = false) ∧
          (∀ lastF ∈ rest.getLast?, lastF.1.fin = true ∧
              lastF.1.opCode
                = (if rest.length = 1 then OpCode.eText else OpCode.eContinuation))) :=
  C8_sendData_fragmentation { } [0, 1, 2, 3, 4, 5, 6, 7, 8, 9] 5 rfl (by decide)

/-- Claim C9: once a Close frame has been sent or received
(`CloseState ≠ None`), every send operation returns `Closed` and emits no
frame — both through the session's own guard at the top of
`sendMessage`/`sendClose`/`sendPing`/`sendPong` and through a revoked
`Senders::Impl` whose closures have been swapped to empty. -/
theorem C9_closed_state_sends_return_closed (st : WebSocketState)
    (h : st.closeHandshake ≠ CloseHandshake.eNone)
    (payload reason message : List Nat) (code maxFrameSize : Nat) (impl : SendersImpl) :
    sendMessage st message maxFrameSize = (SendResult.eClosed, []) ∧
    sendClose st code reason = (SendResult.eClosed, st, []) ∧
    sendPing st payload = (SendResult.eClosed, []) ∧
    sendPong st payload = (SendResult.eClosed, []) ∧
    (SendersImpl.close impl).sendData message maxFrameSize = SendResult.eClosed ∧
    (SendersImpl.close impl).sendClose code reason = SendResult.eClosed ∧
    (SendersImpl.close impl).sendPing payload = SendResult.eClosed ∧
    (SendersImpl.close impl).sendPong payload = SendResult.eClosed := by
  refine ⟨?_, ?_, ?_, ?_, rfl, rfl, rfl, rfl⟩ <;>
    simp [sendMessage, sendClose, sendPing, sendPong, h]

/-- Witness for C9 at a concrete closed session and a concrete revoked
sender facade. -/
theorem C9_closed_state_sends_return_closed_witness :
    sendMessage { closeHandshake := CloseHandshake.eClientInitiated } [1] 0
        = (SendResult.eClosed, []) ∧
    sendClose { closeHandshake := CloseHandshake.eClientInitiated } 1000 []
        = (SendResult.eClosed, { closeHandshake := CloseHandshake.eClientInitiated }, []) ∧
    sendPing { closeHandshake := CloseHandshake.eClientInitiated } []
        = (SendResult.eClosed, []) ∧
    sendPong { closeHandshake := CloseHandshake.eClientInitiated } []
        = (SendResult.eClosed, []) ∧
    (SendersImpl.close ⟨none, none, none, none⟩).sendData [1] 0 = SendResult.eClosed ∧
    (SendersImpl.close ⟨none, none, none, none⟩).sendClose 1000 [] = SendResult.eClosed ∧
    (SendersImpl.close ⟨none, none, none, none⟩).sendPing [] = SendResult.eClosed ∧
    (SendersImpl.close ⟨none, none, none, none⟩).sendPong [] = SendResult.eClosed :=
  C9_closed_state_sends_return_closed { closeHandshake := CloseHandshake.eClientInitiated }
    (by decide) [] [] [1] 1000 0 ⟨none, none, none, none⟩

/-- Claim C10: any received frame with the mask bit clear, on a session
that has not yet entered the close handshake, makes `parseFrame` emit a
Close frame whose payload is the 2-byte network-order code 1002 (no
reason), move the close state to server-initiated (out of Open), invoke
the close callback, and return `false` so the scheduler deregisters the
socket. -/
theorem C10_unmasked_frame_closes_1002 (st : WebSocketState) (frame : Frame)
    (hopen : st.closeHandshake = CloseHandshake.eNone)
    (hmask : frame.header.isMasked = false) :
    processFrame st frame
      = ({ st with closeHandshake := CloseHandshake.eServerInitiated },
         [Event.sendFrame { opCode := OpCode.eConnectionClose, payloadSize := 2 } [3, 234],
          Event.closeCallback], false) ∧
    encodePayloadCode protocolErrorCode = [3, 234] := by
  constructor
  · simp [processFrame, closeConnection, hmask, hopen, encodePayloadCode, protocolErrorCode]
  · decide

/-- Witness for C10 at a concrete open session and a concrete unmasked
Text frame. -/
theorem C10_unmasked_frame_closes_1002_witness :
    processFrame { }
        ⟨{ fin := true, opCode := OpCode.eText, isMasked := false, payloadSize := 1 }, [104]⟩
      = ({ ({} : WebSocketState) with closeHandshake := CloseHandshake.eServerInitiated },
         [Event.sendFrame { opCode := OpCode.eConnectionClose, payloadSize := 2 } [3, 234],
          Event.closeCallback], false) ∧
    encodePayloadCode protocolErrorCode = [3, 234] :=
  C10_unmasked_frame_closes_1002 { }
    ⟨{ fin := true, opCode := OpCode.eText, isMasked := false, payloadSize := 1 }, [104]⟩
    rfl rfl

end Lb
